import Mathlib

/-!
Shallow embedding of the Wallprinter application core:
the resize/crop letterbox pipeline, the guide-image compositor and the
model-response extraction from `src/services/geminiService.ts`, the
polygon editor gestures from the `ImageUploader` component, the
generate-click controller from `src/App.tsx`, the Pexels stock-photo
client, and the saved-image viewer navigation.

JavaScript numbers are modelled as rationals; canvas drawing calls are
modelled as a trace of drawing operations; promise rejection is
modelled with `Except String`.
-/

namespace Wallprinter

/-- A polygon corner in percentage coordinates (`CornerPercent` in types.ts). -/
structure CornerPercent where
  xPercent : ℚ
  yPercent : ℚ
deriving DecidableEq, Repr

/-- The square working resolution (`MAX_DIMENSION` in geminiService.ts). -/
def maxDimension : ℚ := 1024

/-- Result of `resizeImage`: a targetDimension-square canvas filled with the
padding colour, with the source image drawn at the letterbox rectangle. -/
structure ResizeSpec where
  canvasWidth : ℚ
  canvasHeight : ℚ
  fillColor : String
  drawX : ℚ
  drawY : ℚ
  drawWidth : ℚ
  drawHeight : ℚ
deriving DecidableEq, Repr

/-- Embedding of `resizeImage` (geminiService.ts): letterbox the image of
intrinsic size `imgWidth` by `imgHeight` into a `targetDimension` square,
padding with neutral grey. -/
def resizeImage (imgWidth imgHeight targetDimension : ℚ) : ResizeSpec :=
  let aspectRatio := imgWidth / imgHeight
  let wh := if 1 < aspectRatio then
      (targetDimension, targetDimension / aspectRatio)
    else
      (targetDimension * aspectRatio, targetDimension)
  let newWidth := wh.1
  let newHeight := wh.2
  let x := (targetDimension - newWidth) / 2
  let y := (targetDimension - newHeight) / 2
  { canvasWidth := targetDimension
    canvasHeight := targetDimension
    fillColor := "#808080"
    drawX := x
    drawY := y
    drawWidth := newWidth
    drawHeight := newHeight }

/-- Result of `cropToOriginalAspectRatio`: an output canvas of the content
size, with the source rectangle `(sx, sy, sWidth, sHeight)` of the square
image drawn onto the full output canvas. -/
structure CropSpec where
  canvasWidth : ℚ
  canvasHeight : ℚ
  sx : ℚ
  sy : ℚ
  sWidth : ℚ
  sHeight : ℚ
deriving DecidableEq, Repr

/-- Embedding of `cropToOriginalAspectRatio` (geminiService.ts): recompute
the letterbox content rectangle for the original `originalWidth` by
`originalHeight` size inside the `targetDimension` square and extract it. -/
def cropToOriginalAspectRatio (originalWidth originalHeight targetDimension : ℚ) : CropSpec :=
  let aspectRatio := originalWidth / originalHeight
  let wh := if 1 < aspectRatio then
      (targetDimension, targetDimension / aspectRatio)
    else
      (targetDimension * aspectRatio, targetDimension)
  let contentWidth := wh.1
  let contentHeight := wh.2
  let x := (targetDimension - contentWidth) / 2
  let y := (targetDimension - contentHeight) / 2
  { canvasWidth := contentWidth
    canvasHeight := contentHeight
    sx := x
    sy := y
    sWidth := contentWidth
    sHeight := contentHeight }

/-- A canvas drawing command recorded by the guide-image compositor. -/
inductive CanvasOp where
  | drawImage (image : Nat) (dx dy : ℚ)
  | fillPoly (color : String) (pts : List (ℚ × ℚ))
deriving DecidableEq, Repr

/-- Whether a drawing command draws the image with the given identifier. -/
def opUsesImage (imgId : Nat) : CanvasOp → Bool
  | CanvasOp.drawImage i _ _ => i == imgId
  | _ => false

/-- Percentage-to-canvas mapping `getCanvasCoords` used inside
`createOverlayMaskedImage`. -/
def getCanvasCoords (offsetX offsetY contentWidth contentHeight : ℚ)
    (p : CornerPercent) : ℚ × ℚ :=
  (offsetX + p.xPercent / 100 * contentWidth,
   offsetY + p.yPercent / 100 * contentHeight)

/-- Embedding of `createOverlayMaskedImage` (geminiService.ts): on a canvas
of the scene image's size (whose width is taken as the target dimension),
draw the scene, then fill the placement polygon with solid opaque magenta;
reject when fewer than three points are given. The result is the trace of
canvas drawing commands. -/
def createOverlayMaskedImage (sceneImage : Nat) (sceneWidth sceneHeight : ℚ)
    (points : List CornerPercent)
    (originalWidth originalHeight : ℚ) : Except String (List CanvasOp) :=
  let targetDimension := sceneWidth
  let aspectRatio := originalWidth / originalHeight
  let wh := if 1 < aspectRatio then
      (targetDimension, targetDimension / aspectRatio)
    else
      (targetDimension * aspectRatio, targetDimension)
  let contentWidth := wh.1
  let contentHeight := wh.2
  let offsetX := (targetDimension - contentWidth) / 2
  let offsetY := (targetDimension - contentHeight) / 2
  if 3 ≤ points.length then
    Except.ok [CanvasOp.drawImage sceneImage 0 0,
      CanvasOp.fillPoly "rgb(255, 0, 255)"
        (points.map (getCanvasCoords offsetX offsetY contentWidth contentHeight))]
  else
    Except.error "Not enough points to draw the placement area."

/-- Modelled from the spec, for comparison only: the alternative guide-image
mode the spec describes, pasting the artwork into the polygon's clipped
bounding box, which would record a draw of the artwork image. No such mode
exists in `createOverlayMaskedImage`. -/
def specArtworkPasteGuide (artworkImage : Nat) (bboxX bboxY : ℚ) : List CanvasOp :=
  [CanvasOp.drawImage artworkImage bboxX bboxY]

/-- Inline image payload of a model-response part. -/
structure InlineData where
  mimeType : String
  data : String
deriving DecidableEq, Repr

/-- One part of the model response: optional inline image data and
optional text. -/
structure ResponsePart where
  inlineData : Option InlineData
  text : Option String
deriving DecidableEq, Repr

/-- The `find(part => part.inlineData)` step: first part carrying inline
image data, then its payload. -/
def extractInline (parts : List ResponsePart) : Option InlineData :=
  (parts.find? (fun p => p.inlineData.isSome)).bind (fun p => p.inlineData)

/-- A successful generation or edit outcome: the data URL assembled from the
returned bytes, and the crop applied to it. -/
structure GenOutcome where
  sourceUrl : String
  crop : CropSpec
deriving DecidableEq, Repr

/-- Embedding of the response-handling tail of `generateMuralOnScene`
(geminiService.ts): take the first part with inline data from
`candidates[0].content.parts` (the whole optional chain modelled as an
`Option` of a part list), build a data URL from its bytes and crop it back
to the original aspect ratio; otherwise throw. -/
def generateMuralOnSceneResult (parts : Option (List ResponsePart))
    (originalWidth originalHeight : ℚ) : Except String GenOutcome :=
  match extractInline (parts.getD []) with
  | some d =>
      Except.ok
        { sourceUrl := "data:" ++ d.mimeType ++ ";base64," ++ d.data
          crop := cropToOriginalAspectRatio originalWidth originalHeight maxDimension }
  | none => Except.error "The AI model did not return an image. Please try again."

/-- Embedding of the response-handling tail of `editSceneWithPrompt`
(geminiService.ts); identical to the mural path except for the error
message. -/
def editSceneWithPromptResult (parts : Option (List ResponsePart))
    (originalWidth originalHeight : ℚ) : Except String GenOutcome :=
  match extractInline (parts.getD []) with
  | some d =>
      Except.ok
        { sourceUrl := "data:" ++ d.mimeType ++ ";base64," ++ d.data
          crop := cropToOriginalAspectRatio originalWidth originalHeight maxDimension }
  | none => Except.error "The AI model did not return an edited image. Please try again."

/-- Pointer position converted to percentage coordinates, as done in
`handlePointerDown` of the `ImageUploader` component (no clamping there). -/
def pointerToPercent (offsetX offsetY width height px py : ℚ) : CornerPercent :=
  let imageX := px - offsetX
  let imageY := py - offsetY
  { xPercent := imageX / width * 100, yPercent := imageY / height * 100 }

/-- Clamped percentage x coordinate written by `handlePointerMove`:
the image-space coordinate is clamped to `[0, width]` before conversion. -/
def clampedPercent (offset extent pointer : ℚ) : ℚ :=
  let imageCoord := pointer - offset
  let clamped := max 0 (min imageCoord extent)
  clamped / extent * 100

/-- The empty-area branch of `handlePointerDown`: create four coincident
vertices at the pressed position (index 2 becomes the dragged corner). -/
def startDrawing (offsetX offsetY width height px py : ℚ) : List CornerPercent :=
  let p := pointerToPercent offsetX offsetY width height px py
  [p, p, p, p]

/-- The `isDrawing` branch of `handlePointerMove`: overwrite vertices 1, 2
and 3 from the anchor vertex 0 and the clamped pointer position, keeping an
axis-aligned rectangle. Lists not of the shape produced by the drawing
gesture are returned unchanged. -/
def drawingMove (offsetX offsetY width height : ℚ) (pts : List CornerPercent)
    (px py : ℚ) : List CornerPercent :=
  let newX := clampedPercent offsetX width px
  let newY := clampedPercent offsetY height py
  match pts with
  | p0 :: _ :: _ :: _ :: rest =>
      p0 :: { xPercent := newX, yPercent := p0.yPercent }
         :: { xPercent := newX, yPercent := newY }
         :: { xPercent := p0.xPercent, yPercent := newY } :: rest
  | other => other

/-- Four points forming an axis-aligned rectangle: horizontal top and bottom
edges and vertical left and right edges. -/
def isAxisAlignedRect (pts : List CornerPercent) : Prop :=
  match pts with
  | [p0, p1, p2, p3] =>
      p0.yPercent = p1.yPercent ∧ p1.xPercent = p2.xPercent ∧
      p2.yPercent = p3.yPercent ∧ p3.xPercent = p0.xPercent
  | _ => False

/-- JavaScript `splice(idx, 0, a)`: insert `a` at position `idx`. -/
def spliceInsert (l : List CornerPercent) (idx : Nat) (a : CornerPercent) :
    List CornerPercent :=
  l.take idx ++ a :: l.drop idx

/-- The midpoint branch of `handlePointerDown`: the marker of the edge from
vertex `i` to vertex `(i+1) % n` carries `p1 = i` and `p2 = (i+1) % n`; the
new vertex (the pressed position in percentage coordinates) is spliced in at
index `Math.max(p1, p2)`. -/
def handleMidpointDown (points : List CornerPercent) (i : Nat)
    (offsetX offsetY width height px py : ℚ) : List CornerPercent :=
  let newIndex := max i ((i + 1) % points.length)
  let newPoint := pointerToPercent offsetX offsetY width height px py
  spliceInsert points newIndex newPoint

/-- Embedding of `handlePointDoubleClick` (`ImageUploader`): remove the
vertex at the given index via `filter((_, index) => index !== indexToDelete)`
(extensionally `List.eraseIdx`), but only when more than three vertices
remain. -/
def handlePointDoubleClick (points : List CornerPercent) (indexToDelete : Nat) :
    List CornerPercent :=
  if 3 < points.length then points.eraseIdx indexToDelete else points

/-- The successful result of `generateMuralOnScene` as consumed by
`App.tsx`. -/
structure GenResult where
  finalImageUrl : String
  debugImageUrl : String
  finalPrompt : String
deriving DecidableEq, Repr

/-- The slice of `App` component state touched by `handleGenerateClick`.
Files and artworks are abstracted to identifiers. -/
structure AppState where
  selectedArtwork : Option Nat
  sceneImageFile : Option Nat
  placementAreaPoints : Option (List CornerPercent)
  generatedImageUrl : Option String
  debugImageUrl : Option String
  finalPrompt : Option String
  isLoading : Bool
  error : Option String
deriving DecidableEq, Repr

/-- The entry guard of `handleGenerateClick`: no artwork, no scene file, or
a placement area that is missing or has fewer than three points. -/
def generateGuardFails (s : AppState) : Bool :=
  s.selectedArtwork.isNone || s.sceneImageFile.isNone ||
    (match s.placementAreaPoints with
     | none => true
     | some pts => pts.length < 3)

/-- Embedding of `handleGenerateClick` (App.tsx). The call to
`generateMuralOnScene` (together with the artwork fetch preceding it) is
abstracted as an `Except String GenResult` outcome supplied by the
environment; the returned flag records whether the generation call was
reached. On the guard path only the error message is set; otherwise the
loading flag is raised and error and result are cleared before the call,
the outcome is applied, and the loading flag is cleared in the `finally`
block. -/
def handleGenerateClick (s : AppState) (outcome : Except String GenResult) :
    AppState × Bool :=
  if generateGuardFails s then
    ({ s with error := some "Please select an artwork, upload a scene, and define a placement area (at least 3 points)." },
     false)
  else
    let s1 := { s with isLoading := true, error := none, generatedImageUrl := none }
    match outcome with
    | Except.ok r =>
        ({ s1 with
            generatedImageUrl := some r.finalImageUrl
            debugImageUrl := some r.debugImageUrl
            finalPrompt := some r.finalPrompt
            isLoading := false }, true)
    | Except.error m =>
        ({ s1 with error := some ("Generation failed: " ++ m), isLoading := false },
         true)

/-- The placeholder value the Pexels client refuses to use as a key. -/
def pexelsPlaceholder : String := "YOUR_PEXELS_API_KEY_HERE"

/-- The `per_page` query parameter of the Pexels search URL. -/
def pexelsPerPage : Nat := 15

/-- The JavaScript guard `!apiKey || apiKey === 'YOUR_PEXELS_API_KEY_HERE'`:
an absent key, an empty (falsy) key, or the placeholder. -/
def pexelsKeyMissing (apiKey : Option String) : Bool :=
  match apiKey with
  | none => true
  | some k => k == "" || k == pexelsPlaceholder

/-- A Pexels HTTP response: status code and the `photos` array of the body
(photos abstracted to identifiers). `ok` follows fetch semantics. -/
structure PexelsResponse where
  status : Nat
  photos : List Nat
deriving DecidableEq, Repr

/-- Fetch's `response.ok`: status in the range 200 to 299. -/
def PexelsResponse.ok (r : PexelsResponse) : Bool :=
  200 ≤ r.status && r.status < 300

/-- Embedding of `searchImages` (the Pexels client): refuse a missing or
placeholder key before any request; on a non-ok response throw the
authentication error for status 401 and a generic status-naming error
otherwise; on success return the `photos` array. The HTTP response is a
parameter; the key check does not depend on it. -/
def searchImages (apiKey : Option String) (resp : PexelsResponse) :
    Except String (List Nat) :=
  if pexelsKeyMissing apiKey then
    Except.error "Pexels API key is not configured. Please add your VITE_PEXELS_API_KEY to your .env file."
  else if !resp.ok then
    if resp.status = 401 then
      Except.error "Authentication failed. Please check your Pexels API key."
    else
      Except.error ("Failed to fetch images from Pexels. Status: " ++ toString resp.status)
  else
    Except.ok resp.photos

/-- Embedding of `handleNext` (SavedImageViewerModal.tsx): advance the index
cyclically when more than one image is shown. -/
def handleNext (n i : Nat) : Nat :=
  if 1 < n then (i + 1) % n else i

/-- Embedding of `handlePrev` (SavedImageViewerModal.tsx): step the index
back cyclically when more than one image is shown (`(i - 1 + n) % n` in
JavaScript, written `(i + n - 1) % n` to avoid truncated subtraction). -/
def handlePrev (n i : Nat) : Nat :=
  if 1 < n then (i + n - 1) % n else i

/-- A concrete right-triangle placement polygon used in concrete instances. -/
def triPoints : List CornerPercent :=
  [{ xPercent := 0, yPercent := 0 }, { xPercent := 100, yPercent := 0 },
   { xPercent := 100, yPercent := 100 }]

/-- A concrete four-vertex placement polygon. -/
def quadPoints : List CornerPercent :=
  [{ xPercent := 0, yPercent := 0 }, { xPercent := 100, yPercent := 0 },
   { xPercent := 100, yPercent := 100 }, { xPercent := 0, yPercent := 100 }]

/-- A concrete inline image payload. -/
def sampleInline : InlineData := { mimeType := "image/png", data := "QUJD" }

/-- A concrete model response part carrying inline image data. -/
def sampleImagePart : ResponsePart := { inlineData := some sampleInline, text := none }

/-- A concrete text-only model response part. -/
def sampleTextPart : ResponsePart := { inlineData := none, text := some "ok" }

/-- A concrete response part list whose first inline part is `sampleImagePart`. -/
def sampleParts : List ResponsePart := [sampleTextPart, sampleImagePart]

/-- A concrete app state that passes the generate-click guard. -/
def readyState : AppState :=
  { selectedArtwork := some 1, sceneImageFile := some 2,
    placementAreaPoints := some triPoints, generatedImageUrl := some "old",
    debugImageUrl := some "olddebug", finalPrompt := some "oldprompt",
    isLoading := false, error := none }

/-- A concrete app state with nothing selected, failing the guard. -/
def emptyState : AppState :=
  { selectedArtwork := none, sceneImageFile := none,
    placementAreaPoints := none, generatedImageUrl := none,
    debugImageUrl := none, finalPrompt := none,
    isLoading := false, error := none }

/-- C1: letterbox round-trip. For an original image of positive width `w`
and height `h` and target dimension 1024, `resizeImage` draws the content
at size `(1024, 1024*h/w)` when `w > h` and `(1024*w/h, 1024)` otherwise,
at offsets `((1024 - contentWidth)/2, (1024 - contentHeight)/2)`;
`cropToOriginalAspectRatio` with the same `w`, `h`, `1024` computes exactly
the same content rectangle and extracts it onto a canvas of that size, so
the cropped output's width-to-height ratio equals `w : h`. -/
theorem letterbox_roundtrip (w h : ℚ) (hw : 0 < w) (hh : 0 < h) :
    ((h < w → (resizeImage w h 1024).drawWidth = 1024 ∧
        (resizeImage w h 1024).drawHeight = 1024 * h / w) ∧
     (w ≤ h → (resizeImage w h 1024).drawWidth = 1024 * w / h ∧
        (resizeImage w h 1024).drawHeight = 1024) ∧
     (resizeImage w h 1024).drawX = (1024 - (resizeImage w h 1024).drawWidth) / 2 ∧
     (resizeImage w h 1024).drawY = (1024 - (resizeImage w h 1024).drawHeight) / 2) ∧
    (cropToOriginalAspectRatio w h 1024).sWidth = (resizeImage w h 1024).drawWidth ∧
    (cropToOriginalAspectRatio w h 1024).sHeight = (resizeImage w h 1024).drawHeight ∧
    (cropToOriginalAspectRatio w h 1024).sx = (resizeImage w h 1024).drawX ∧
    (cropToOriginalAspectRatio w h 1024).sy = (resizeImage w h 1024).drawY ∧
    (cropToOriginalAspectRatio w h 1024).canvasWidth = (cropToOriginalAspectRatio w h 1024).sWidth ∧
    (cropToOriginalAspectRatio w h 1024).canvasHeight = (cropToOriginalAspectRatio w h 1024).sHeight ∧
    (cropToOriginalAspectRatio w h 1024).canvasWidth /
      (cropToOriginalAspectRatio w h 1024).canvasHeight = w / h := by
  have hw0 : w ≠ 0 := ne_of_gt hw
  have hh0 : h ≠ 0 := ne_of_gt hh
  by_cases hc : 1 < w / h
  · have hlt : h < w := by rwa [one_lt_div hh] at hc
    simp only [resizeImage, cropToOriginalAspectRatio, hc, if_true]
    refine ⟨⟨fun _ => ⟨trivial, ?_⟩, fun hle => absurd hlt (not_lt.mpr hle), trivial, trivial⟩,
      trivial, trivial, trivial, trivial, trivial, trivial, ?_⟩
    · rw [div_div_eq_mul_div]
    · rw [div_div_eq_mul_div]
      field_simp
      ring
  · have hle : w ≤ h := by
      have h1 : w / h ≤ 1 := not_lt.mp hc
      rwa [div_le_one hh] at h1
    simp only [resizeImage, cropToOriginalAspectRatio, hc, if_false]
    refine ⟨⟨fun hlt => absurd hlt (not_lt.mpr hle), fun _ => ⟨?_, trivial⟩, trivial, trivial⟩,
      trivial, trivial, trivial, trivial, trivial, trivial, ?_⟩
    · rw [mul_div_assoc]
    · rw [mul_div_assoc]
      field_simp
      ring

/-- Witness for C1 at the concrete landscape size 2 by 1. -/
theorem letterbox_roundtrip_witness :
    ((1 : ℚ) < 2 → (resizeImage 2 1 1024).drawWidth = 1024 ∧
        (resizeImage 2 1 1024).drawHeight = 1024 * 1 / 2) ∧
    (cropToOriginalAspectRatio 2 1 1024).canvasWidth /
      (cropToOriginalAspectRatio 2 1 1024).canvasHeight = 2 / 1 := by
  have h := letterbox_roundtrip 2 1 (by norm_num) (by norm_num)
  exact ⟨h.1.1, h.2.2.2.2.2.2.2⟩

/-- C2 (amended): for every placement polygon with at least three points,
the guide-image compositor produces exactly option (b): the scene image
drawn in full followed by a solid opaque magenta fill of the polygon mapped
through the letterbox content rectangle; no drawing command ever references
any image other than the scene, in particular never the artwork (which is
sent to the model as a separate image part instead). -/
theorem guide_image_solid_fill (sceneImage artworkImage : Nat)
    (sceneWidth sceneHeight : ℚ) (points : List CornerPercent)
    (originalWidth originalHeight : ℚ)
    (h3 : 3 ≤ points.length) (hne : artworkImage ≠ sceneImage) :
    (∃ offsetX offsetY contentWidth contentHeight,
      createOverlayMaskedImage sceneImage sceneWidth sceneHeight points
          originalWidth originalHeight =
        Except.ok [CanvasOp.drawImage sceneImage 0 0,
          CanvasOp.fillPoly "rgb(255, 0, 255)"
            (points.map (getCanvasCoords offsetX offsetY contentWidth contentHeight))]) ∧
    ((createOverlayMaskedImage sceneImage sceneWidth sceneHeight points
        originalWidth originalHeight).toOption.getD []).all
      (fun op => !opUsesImage artworkImage op) = true := by
  constructor
  · simp only [createOverlayMaskedImage, if_pos h3]
    exact ⟨_, _, _, _, rfl⟩
  · simp only [createOverlayMaskedImage, if_pos h3, Except.toOption, Option.getD,
      List.all, opUsesImage]
    simp [beq_eq_false_iff_ne]
    exact fun h => hne h.symm

/-- Witness for C2 (amended) at a concrete scene, artwork and triangle. -/
theorem guide_image_solid_fill_witness :
    (∃ offsetX offsetY contentWidth contentHeight,
      createOverlayMaskedImage 0 200 200 triPoints 2 1 =
        Except.ok [CanvasOp.drawImage 0 0 0,
          CanvasOp.fillPoly "rgb(255, 0, 255)"
            (triPoints.map (getCanvasCoords offsetX offsetY contentWidth contentHeight))]) ∧
    ((createOverlayMaskedImage 0 200 200 triPoints 2 1).toOption.getD []).all
      (fun op => !opUsesImage 1 op) = true :=
  guide_image_solid_fill 0 1 200 200 triPoints 2 1 (by decide) (by decide)

/-- C2 counterexample: at a concrete artwork (image 1), scene (image 0) and
triangle polygon, the compositor's output is the solid magenta fill of the
polygon over the scene and contains no drawing of the artwork, so the
artwork-paste alternative (a) of the claim is not produced even though an
artwork is supplied to the generation pipeline. -/
theorem guide_image_counterexample :
    createOverlayMaskedImage 0 200 200 triPoints 2 1 =
      Except.ok [CanvasOp.drawImage 0 0 0,
        CanvasOp.fillPoly "rgb(255, 0, 255)" [(0, 50), (200, 50), (200, 150)]] ∧
    (List.any [CanvasOp.drawImage 0 0 0,
        CanvasOp.fillPoly "rgb(255, 0, 255)" [(0, 50), (200, 50), (200, 150)]]
      (opUsesImage 1)) = false := by
  constructor
  · show _ = _
    norm_num [createOverlayMaskedImage, triPoints, getCanvasCoords]
  · decide

/-- C3 counterexample: on the triangle `[(0,0), (100,0), (100,100)]`,
pressing the midpoint marker of the closing edge joining vertex 2 and
vertex `(2+1) mod 3 = 0` (pressed position mapping to `(50,50)`) splices
the new vertex in at index `max 2 0 = 2`, producing
`[(0,0), (100,0), (50,50), (100,100)]` — the new vertex sits between
vertices 1 and 2, not between vertices 2 and 0 as the claim states, which
would give `[(0,0), (100,0), (100,100), (50,50)]`. -/
theorem midpoint_insertion_counterexample :
    handleMidpointDown triPoints 2 0 0 100 100 50 50 =
      [{ xPercent := 0, yPercent := 0 }, { xPercent := 100, yPercent := 0 },
       { xPercent := 50, yPercent := 50 }, { xPercent := 100, yPercent := 100 }] ∧
    handleMidpointDown triPoints 2 0 0 100 100 50 50 ≠
      [{ xPercent := 0, yPercent := 0 }, { xPercent := 100, yPercent := 0 },
       { xPercent := 100, yPercent := 100 }, { xPercent := 50, yPercent := 50 }] := by
  have hres : handleMidpointDown triPoints 2 0 0 100 100 50 50 =
      [{ xPercent := 0, yPercent := 0 }, { xPercent := 100, yPercent := 0 },
       { xPercent := 50, yPercent := 50 }, { xPercent := 100, yPercent := 100 }] := by
    norm_num [handleMidpointDown, spliceInsert, triPoints, pointerToPercent]
  refine ⟨hres, ?_⟩
  rw [hres]
  norm_num [CornerPercent.mk.injEq]

/-- C3 (amended): pressing the midpoint marker of the edge joining vertices
`i` and `(i+1) mod n` inserts the pressed position (converted to percentage
coordinates) as one new vertex, keeps every original vertex unchanged and
in order, and makes the polygon length `n+1`; the new vertex lands between
vertices `i` and `i+1` for every non-closing edge (`i+1 < n`), but for the
closing edge (`i = n-1`) it is spliced in at index `n-1`, i.e. between
vertices `n-2` and `n-1` rather than between `n-1` and `0`. -/
theorem midpoint_insertion (points : List CornerPercent) (i : Nat)
    (offsetX offsetY width height px py : ℚ)
    (hi : i < points.length) :
    (handleMidpointDown points i offsetX offsetY width height px py).length
        = points.length + 1 ∧
    (i + 1 < points.length →
      handleMidpointDown points i offsetX offsetY width height px py =
        points.take (i + 1) ++
          pointerToPercent offsetX offsetY width height px py :: points.drop (i + 1)) ∧
    (i + 1 = points.length →
      handleMidpointDown points i offsetX offsetY width height px py =
        points.take i ++
          pointerToPercent offsetX offsetY width height px py :: points.drop i) := by
  have hidx : max i ((i + 1) % points.length) =
      if i + 1 < points.length then i + 1 else i := by
    rcases Nat.lt_or_ge (i + 1) points.length with hlt | hge
    · simp [Nat.mod_eq_of_lt hlt, hlt, Nat.max_eq_right (Nat.le_succ i)]
    · have heq : i + 1 = points.length := le_antisymm hi hge
      rw [heq, Nat.mod_self, if_neg (lt_irrefl _)]
      exact Nat.max_eq_left (Nat.zero_le i)
  simp only [handleMidpointDown, spliceInsert, hidx]
  by_cases hlt : i + 1 < points.length
  · simp only [if_pos hlt]
    refine ⟨?_, fun _ => trivial, fun heq => absurd heq (Nat.ne_of_lt hlt)⟩
    simp only [List.length_append, List.length_take, List.length_cons, List.length_drop]
    omega
  · have heq : i + 1 = points.length := le_antisymm hi (Nat.le_of_not_lt hlt)
    simp only [if_neg hlt]
    refine ⟨?_, fun h' => absurd h' hlt, fun _ => trivial⟩
    simp only [List.length_append, List.length_take, List.length_cons, List.length_drop]
    omega

/-- Witness for C3 (amended) on the triangle's first edge. -/
theorem midpoint_insertion_witness :
    (handleMidpointDown triPoints 0 0 0 100 100 50 50).length = triPoints.length + 1 ∧
    (0 + 1 < triPoints.length →
      handleMidpointDown triPoints 0 0 0 100 100 50 50 =
        triPoints.take (0 + 1) ++
          pointerToPercent 0 0 100 100 50 50 :: triPoints.drop (0 + 1)) ∧
    (0 + 1 = triPoints.length →
      handleMidpointDown triPoints 0 0 0 100 100 50 50 =
        triPoints.take 0 ++
          pointerToPercent 0 0 100 100 50 50 :: triPoints.drop 0) :=
  midpoint_insertion triPoints 0 0 0 100 100 50 50 (by decide)

/-- C4: double-clicking vertex `i` removes exactly that vertex, preserving
all other vertices and their order, when the polygon has more than three
vertices; with three or fewer vertices the polygon is unchanged; deletion
therefore never yields a placement polygon with fewer than three corners. -/
theorem point_deletion (points : List CornerPercent) (i : Nat) :
    (points.length ≤ 3 → handlePointDoubleClick points i = points) ∧
    (3 < points.length → i < points.length →
      handlePointDoubleClick points i = points.take i ++ points.drop (i + 1) ∧
      (handlePointDoubleClick points i).length = points.length - 1 ∧
      3 ≤ (handlePointDoubleClick points i).length) := by
  constructor
  · intro hle
    simp [handlePointDoubleClick, Nat.not_lt.mpr hle]
  · intro hgt hi
    simp only [handlePointDoubleClick, if_pos hgt]
    refine ⟨List.eraseIdx_eq_take_drop_succ points i, ?_, ?_⟩
    · rw [List.length_eraseIdx_of_lt hi]
    · rw [List.length_eraseIdx_of_lt hi]
      omega

/-- Witness for C4 on a concrete quadrilateral, deleting vertex 1. -/
theorem point_deletion_witness :
    handlePointDoubleClick quadPoints 1 = quadPoints.take 1 ++ quadPoints.drop 2 ∧
    (handlePointDoubleClick quadPoints 1).length = quadPoints.length - 1 ∧
    3 ≤ (handlePointDoubleClick quadPoints 1).length :=
  (point_deletion quadPoints 1).2 (by decide) (by decide)

/-- C5: the mural-generation and scene-editing response handlers return a
result exactly when the model response has a part with inline image data;
with no such part each throws its respective fixed error message, and on
success the result is the first inline part's bytes as a data URL together
with the crop back to the original scene aspect ratio at dimension 1024. -/
theorem inline_image_extraction (parts : List ResponsePart) (w h : ℚ) :
    ((generateMuralOnSceneResult (some parts) w h).isOk
        = parts.any (fun p => p.inlineData.isSome)) ∧
    ((editSceneWithPromptResult (some parts) w h).isOk
        = parts.any (fun p => p.inlineData.isSome)) ∧
    (parts.find? (fun p => p.inlineData.isSome) = none →
      generateMuralOnSceneResult (some parts) w h =
        Except.error "The AI model did not return an image. Please try again." ∧
      editSceneWithPromptResult (some parts) w h =
        Except.error "The AI model did not return an edited image. Please try again.") ∧
    (∀ d, extractInline parts = some d →
      generateMuralOnSceneResult (some parts) w h =
        Except.ok { sourceUrl := "data:" ++ d.mimeType ++ ";base64," ++ d.data
                    crop := cropToOriginalAspectRatio w h maxDimension } ∧
      editSceneWithPromptResult (some parts) w h =
        Except.ok { sourceUrl := "data:" ++ d.mimeType ++ ";base64," ++ d.data
                    crop := cropToOriginalAspectRatio w h maxDimension }) := by
  cases hfind : parts.find? (fun p => p.inlineData.isSome) with
  | none =>
    have hext : extractInline parts = none := by simp [extractInline, hfind]
    have hany : parts.any (fun p => p.inlineData.isSome) = false := by
      rw [List.any_eq_false]
      intro x hx
      simpa using List.find?_eq_none.mp hfind x hx
    refine ⟨?_, ?_, fun _ => ⟨?_, ?_⟩, ?_⟩
    · simp [generateMuralOnSceneResult, hext, hany, Except.isOk, Except.toBool]
    · simp [editSceneWithPromptResult, hext, hany, Except.isOk, Except.toBool]
    · simp [generateMuralOnSceneResult, hext]
    · simp [editSceneWithPromptResult, hext]
    · intro d hd
      rw [hext] at hd
      cases hd
  | some pt =>
    have hmem := List.mem_of_find?_eq_some hfind
    have hprop : pt.inlineData.isSome := by simpa using List.find?_some hfind
    obtain ⟨d, hd⟩ := Option.isSome_iff_exists.mp hprop
    have hext : extractInline parts = some d := by simp [extractInline, hfind, hd]
    have hany : parts.any (fun p => p.inlineData.isSome) = true :=
      List.any_eq_true.mpr ⟨pt, hmem, by simpa using hprop⟩
    refine ⟨?_, ?_, fun hnone => absurd hnone (by simp [hfind]), ?_⟩
    · simp [generateMuralOnSceneResult, hext, hany, Except.isOk, Except.toBool]
    · simp [editSceneWithPromptResult, hext, hany, Except.isOk, Except.toBool]
    · intro d' hd'
      rw [hext] at hd'
      cases hd'
      constructor
      · simp [generateMuralOnSceneResult, hext]
      · simp [editSceneWithPromptResult, hext]

/-- Witness for C5 on a concrete response with one text part and one inline
image part, at scene size 4 by 3. -/
theorem inline_image_extraction_witness :
    generateMuralOnSceneResult (some sampleParts) 4 3 =
      Except.ok { sourceUrl := "data:image/png;base64,QUJD"
                  crop := cropToOriginalAspectRatio 4 3 maxDimension } ∧
    editSceneWithPromptResult (some sampleParts) 4 3 =
      Except.ok { sourceUrl := "data:image/png;base64,QUJD"
                  crop := cropToOriginalAspectRatio 4 3 maxDimension } :=
  (inline_image_extraction sampleParts 4 3).2.2.2 sampleInline (by decide)

/-- C6: when the guard passes and `generateMuralOnScene` rejects with
message `m`, `handleGenerateClick` sets the error string to
`"Generation failed: " ++ m`, the generated-image URL is `none` (cleared
before the call and not set on the error path), the loading flag ends
cleared, the generation call was reached, and every other state field is
left untouched. -/
theorem failure_propagation (s : AppState) (m : String)
    (hguard : generateGuardFails s = false) :
    (handleGenerateClick s (Except.error m)).1.error
        = some ("Generation failed: " ++ m) ∧
    (handleGenerateClick s (Except.error m)).1.generatedImageUrl = none ∧
    (handleGenerateClick s (Except.error m)).1.isLoading = false ∧
    (handleGenerateClick s (Except.error m)).2 = true ∧
    (handleGenerateClick s (Except.error m)).1.selectedArtwork = s.selectedArtwork ∧
    (handleGenerateClick s (Except.error m)).1.sceneImageFile = s.sceneImageFile ∧
    (handleGenerateClick s (Except.error m)).1.placementAreaPoints = s.placementAreaPoints ∧
    (handleGenerateClick s (Except.error m)).1.debugImageUrl = s.debugImageUrl ∧
    (handleGenerateClick s (Except.error m)).1.finalPrompt = s.finalPrompt := by
  simp [handleGenerateClick, hguard]

/-- Witness for C6 on a concrete ready state and a concrete message. -/
theorem failure_propagation_witness :
    (handleGenerateClick readyState (Except.error "boom")).1.error
        = some ("Generation failed: " ++ "boom") ∧
    (handleGenerateClick readyState (Except.error "boom")).1.generatedImageUrl = none ∧
    (handleGenerateClick readyState (Except.error "boom")).1.isLoading = false ∧
    (handleGenerateClick readyState (Except.error "boom")).2 = true ∧
    (handleGenerateClick readyState (Except.error "boom")).1.selectedArtwork
        = readyState.selectedArtwork ∧
    (handleGenerateClick readyState (Except.error "boom")).1.sceneImageFile
        = readyState.sceneImageFile ∧
    (handleGenerateClick readyState (Except.error "boom")).1.placementAreaPoints
        = readyState.placementAreaPoints ∧
    (handleGenerateClick readyState (Except.error "boom")).1.debugImageUrl
        = readyState.debugImageUrl ∧
    (handleGenerateClick readyState (Except.error "boom")).1.finalPrompt
        = readyState.finalPrompt :=
  failure_propagation readyState "boom" (by decide)

/-- C7: the Pexels client throws its configuration error for a missing,
empty or placeholder key independently of any HTTP response; on a non-ok
response it throws the authentication error for status 401 and an error
naming the status otherwise; on success it returns exactly the `photos`
array; the request asks for at most 15 results per query. -/
theorem stock_photo_client_errors (apiKey : Option String) (resp : PexelsResponse) :
    (pexelsKeyMissing apiKey = true →
      searchImages apiKey resp =
        Except.error "Pexels API key is not configured. Please add your VITE_PEXELS_API_KEY to your .env file.") ∧
    (pexelsKeyMissing apiKey = false → resp.status = 401 →
      searchImages apiKey resp =
        Except.error "Authentication failed. Please check your Pexels API key.") ∧
    (pexelsKeyMissing apiKey = false → resp.ok = false → resp.status ≠ 401 →
      searchImages apiKey resp =
        Except.error ("Failed to fetch images from Pexels. Status: " ++ toString resp.status)) ∧
    (pexelsKeyMissing apiKey = false → resp.ok = true →
      searchImages apiKey resp = Except.ok resp.photos) ∧
    pexelsPerPage ≤ 15 := by
  refine ⟨?_, ?_, ?_, ?_, ?_⟩
  · intro hk
    simp [searchImages, hk]
  · intro hk h401
    simp [searchImages, hk, PexelsResponse.ok, h401]
  · intro hk hok hne
    simp [searchImages, hk, hok, hne]
  · intro hk hok
    simp [searchImages, hk, hok]
  · decide

/-- Witness for C7 on a concrete key and a successful concrete response. -/
theorem stock_photo_client_errors_witness :
    searchImages (some "realkey") { status := 200, photos := [7, 8] } =
      Except.ok ({ status := 200, photos := [7, 8] } : PexelsResponse).photos :=
  (stock_photo_client_errors (some "realkey") { status := 200, photos := [7, 8] }).2.2.2.1
    (by decide) (by decide)

/-- C8: bounds of the clamped percentage coordinate written by a pointer
move: it always lies in `[0, 100]` when the image extent is positive. -/
theorem clampedPercent_bounds (offset extent pointer : ℚ) (hpos : 0 < extent) :
    0 ≤ clampedPercent offset extent pointer ∧
    clampedPercent offset extent pointer ≤ 100 := by
  have h0 : (0 : ℚ) ≤ max 0 (min (pointer - offset) extent) := le_max_left 0 _
  have hle : max 0 (min (pointer - offset) extent) ≤ extent :=
    max_le (le_of_lt hpos) (min_le_right _ _)
  constructor
  · exact mul_nonneg (div_nonneg h0 (le_of_lt hpos)) (by norm_num)
  · calc max 0 (min (pointer - offset) extent) / extent * 100
        ≤ 1 * 100 := by
          apply mul_le_mul_of_nonneg_right _ (by norm_num : (0:ℚ) ≤ 100)
          exact (div_le_one hpos).mpr hle
      _ = 100 := one_mul 100

/-- C8: rectangle-drawing invariant. Starting a drawing gesture on an empty
area creates four coincident vertices at the pressed position, and after
every sequence of pointer moves of that gesture the four points form an
axis-aligned rectangle anchored at the unchanged vertex 0 (vertices 0 and 1
share `yPercent`, 1 and 2 share `xPercent`, 2 and 3 share `yPercent`, 3 and
0 share `xPercent`), while every coordinate written by a move is clamped
into `[0, 100]`. -/
theorem rectangle_drawing_invariant (offsetX offsetY width height px py mx my : ℚ)
    (moves : List (ℚ × ℚ)) (hw : 0 < width) (hh : 0 < height) :
    isAxisAlignedRect (startDrawing offsetX offsetY width height px py) ∧
    isAxisAlignedRect (moves.foldl
      (fun pts mv => drawingMove offsetX offsetY width height pts mv.1 mv.2)
      (startDrawing offsetX offsetY width height px py)) ∧
    (moves.foldl
      (fun pts mv => drawingMove offsetX offsetY width height pts mv.1 mv.2)
      (startDrawing offsetX offsetY width height px py)).head?
        = some (pointerToPercent offsetX offsetY width height px py) ∧
    (moves.foldl
      (fun pts mv => drawingMove offsetX offsetY width height pts mv.1 mv.2)
      (startDrawing offsetX offsetY width height px py)).length = 4 ∧
    (0 ≤ clampedPercent offsetX width mx ∧ clampedPercent offsetX width mx ≤ 100) ∧
    (0 ≤ clampedPercent offsetY height my ∧ clampedPercent offsetY height my ≤ 100) := by
  set p0 := pointerToPercent offsetX offsetY width height px py with hp0
  have hstart : ∃ p1 p2 p3, startDrawing offsetX offsetY width height px py
      = [p0, p1, p2, p3] ∧
      isAxisAlignedRect (startDrawing offsetX offsetY width height px py) := by
    refine ⟨p0, p0, p0, rfl, ?_⟩
    simp [startDrawing, isAxisAlignedRect]
  have step : ∀ pts mv, (∃ p1 p2 p3, pts = [p0, p1, p2, p3] ∧ isAxisAlignedRect pts) →
      ∃ q1 q2 q3, drawingMove offsetX offsetY width height pts
          (Prod.fst mv) (Prod.snd mv) = [p0, q1, q2, q3] ∧
        isAxisAlignedRect (drawingMove offsetX offsetY width height pts
          (Prod.fst mv) (Prod.snd mv)) := by
    rintro pts mv ⟨p1, p2, p3, hpts, -⟩
    subst hpts
    refine ⟨_, _, _, rfl, ?_⟩
    simp [drawingMove, isAxisAlignedRect]
  have main : ∀ (ms : List (ℚ × ℚ)) (pts : List CornerPercent),
      (∃ p1 p2 p3, pts = [p0, p1, p2, p3] ∧ isAxisAlignedRect pts) →
      ∃ p1 p2 p3, (ms.foldl
          (fun l mv => drawingMove offsetX offsetY width height l mv.1 mv.2) pts)
        = [p0, p1, p2, p3] ∧
        isAxisAlignedRect (ms.foldl
          (fun l mv => drawingMove offsetX offsetY width height l mv.1 mv.2) pts) := by
    intro ms
    induction ms with
    | nil => exact fun pts h => h
    | cons mv ms ih =>
        intro pts h
        exact ih _ (step pts mv h)
  obtain ⟨q1, q2, q3, hfold, hrect⟩ :=
    main moves (startDrawing offsetX offsetY width height px py) hstart
  refine ⟨hstart.choose_spec.choose_spec.choose_spec.2, hrect, ?_, ?_,
    clampedPercent_bounds offsetX width mx hw,
    clampedPercent_bounds offsetY height my hh⟩
  · rw [hfold]
    rfl
  · rw [hfold]
    rfl

/-- Witness for C8 with a concrete gesture of two moves. -/
theorem rectangle_drawing_invariant_witness :
    isAxisAlignedRect (startDrawing 0 0 100 100 10 10) ∧
    isAxisAlignedRect ([((30 : ℚ), (40 : ℚ)), (150, -20)].foldl
      (fun pts mv => drawingMove 0 0 100 100 pts mv.1 mv.2)
      (startDrawing 0 0 100 100 10 10)) ∧
    ([((30 : ℚ), (40 : ℚ)), (150, -20)].foldl
      (fun pts mv => drawingMove 0 0 100 100 pts mv.1 mv.2)
      (startDrawing 0 0 100 100 10 10)).head?
        = some (pointerToPercent 0 0 100 100 10 10) ∧
    ([((30 : ℚ), (40 : ℚ)), (150, -20)].foldl
      (fun pts mv => drawingMove 0 0 100 100 pts mv.1 mv.2)
      (startDrawing 0 0 100 100 10 10)).length = 4 ∧
    (0 ≤ clampedPercent 0 100 55 ∧ clampedPercent 0 100 55 ≤ 100) ∧
    (0 ≤ clampedPercent 0 100 (-7) ∧ clampedPercent 0 100 (-7) ≤ 100) :=
  rectangle_drawing_invariant 0 0 100 100 10 10 55 (-7)
    [((30 : ℚ), (40 : ℚ)), (150, -20)] (by norm_num) (by norm_num)

/-- C9: a failing guard (no artwork, no scene, or a missing or sub-3-point
placement area) makes `handleGenerateClick` set the fixed error message and
return without reaching the generation call; independently, the compositor
rejects every points list of fewer than three points with its fixed error,
so no guide image is produced from a degenerate polygon. -/
theorem degenerate_polygon_guard (s : AppState) (outcome : Except String GenResult)
    (sceneImage : Nat) (sceneWidth sceneHeight originalWidth originalHeight : ℚ)
    (points : List CornerPercent)
    (hg : generateGuardFails s = true) (hp : points.length < 3) :
    handleGenerateClick s outcome =
      ({ s with error := some "Please select an artwork, upload a scene, and define a placement area (at least 3 points)." },
       false) ∧
    createOverlayMaskedImage sceneImage sceneWidth sceneHeight points
        originalWidth originalHeight =
      Except.error "Not enough points to draw the placement area." := by
  constructor
  · simp [handleGenerateClick, hg]
  · simp [createOverlayMaskedImage, Nat.not_le.mpr hp]

/-- Witness for C9 on the empty state and an empty points list. -/
theorem degenerate_polygon_guard_witness :
    handleGenerateClick emptyState (Except.error "ignored") =
      ({ emptyState with error := some "Please select an artwork, upload a scene, and define a placement area (at least 3 points)." },
       false) ∧
    createOverlayMaskedImage 0 10 10 [] 4 3 =
      Except.error "Not enough points to draw the placement area." :=
  degenerate_polygon_guard emptyState (Except.error "ignored") 0 10 10 4 3 []
    (by decide) (by decide)

/-- C10: cyclic gallery navigation. With more than one image, `handleNext`
maps index `i` to `(i+1) mod n` and `handlePrev` to `(i-1+n) mod n`, so
`handlePrev` undoes `handleNext` and both keep the index inside `[0, n)`;
with at most one image both leave the index unchanged. -/
theorem cyclic_gallery_navigation (n i : Nat) :
    (1 < n → i < n →
      handleNext n i = (i + 1) % n ∧
      handlePrev n i = (i + n - 1) % n ∧
      handlePrev n (handleNext n i) = i ∧
      handleNext n i < n ∧
      handlePrev n i < n) ∧
    (n ≤ 1 → handleNext n i = i ∧ handlePrev n i = i) := by
  constructor
  · intro hn hi
    have hn0 : 0 < n := lt_trans one_pos hn
    refine ⟨by simp [handleNext, hn], by simp [handlePrev, hn], ?_, ?_, ?_⟩
    · simp only [handleNext, handlePrev, if_pos hn]
      rcases Nat.lt_or_ge (i + 1) n with hlt | hge
      · rw [Nat.mod_eq_of_lt hlt]
        have harith : i + 1 + n - 1 = i + n := by omega
        rw [harith, Nat.add_mod_right, Nat.mod_eq_of_lt hi]
      · have heq : i + 1 = n := le_antisymm hi hge
        rw [heq, Nat.mod_self]
        have harith : 0 + n - 1 = n - 1 := by omega
        rw [harith, Nat.mod_eq_of_lt (by omega)]
        omega
    · simp only [handleNext, if_pos hn]
      exact Nat.mod_lt _ hn0
    · simp only [handlePrev, if_pos hn]
      exact Nat.mod_lt _ hn0
  · intro hn
    have hnot : ¬ 1 < n := by omega
    exact ⟨by simp [handleNext, hnot], by simp [handlePrev, hnot]⟩

/-- Witness for C10 with three images at index 2 (the wrap-around case). -/
theorem cyclic_gallery_navigation_witness :
    handleNext 3 2 = (2 + 1) % 3 ∧
    handlePrev 3 2 = (2 + 3 - 1) % 3 ∧
    handlePrev 3 (handleNext 3 2) = 2 ∧
    handleNext 3 2 < 3 ∧
    handlePrev 3 2 < 3 :=
  (cyclic_gallery_navigation 3 2).1 (by decide) (by decide)

end Wallprinter
